import Mathlib

/-!
Verification development for the code-review-assistant repository.

The two modules under study are `review_logic.py` (class `CodeReviewer`)
and `metrics.py` (class `Metrics`).  The Python code is embedded shallowly:

* the Python `ast` node kinds that the checks inspect become the inductive
  type `Ast`; `ast.walk` (which yields a node and all of its descendants,
  order unspecified by its documentation) becomes `walk`;
* file and template reads become `Option String` arguments (`none` models
  a read that raises);
* the outcome of the external `ast.parse` call becomes a `ParseResult`
  argument;
* Python `float` arithmetic is modelled with `Rat` (all values exercised
  by the theorems below are small integers or exact decimal fractions);
* Python dictionaries, which preserve insertion order, become association
  lists with update-in-place-or-append semantics;
* exceptions are modelled with explicit error flags / `Option`.
-/

namespace CodeReview

/-- A single finding, mirroring the issue dictionaries built in
`review_logic.py` (`file`, `line`, `category`, `severity`, `message`). -/
structure Issue where
  file : String
  line : Nat
  category : String
  severity : String
  message : String
deriving DecidableEq, Repr

/-- Single-quote character, used inside message strings. -/
def sq : String := String.singleton (Char.ofNat 39)

/-- Backtick character, used inside report strings. -/
def bq : String := String.singleton (Char.ofNat 96)

/-- The slice of the Python `ast` node language that the checks in
`review_logic.py` look at.  `module` carries no line number - `ast.Module`
objects have no `lineno` attribute, which is the crash exercised below.
`functionDef`/`classDef` keep their statement body separate from the other
child nodes (decorators, arguments, bases) because the docstring check
inspects `node.body[0]`.  Every node kind that the checks do not
distinguish is collapsed into `other`. -/
inductive Ast where
  | module (body : List Ast)
  | functionDef (name : String) (lineno : Nat) (extra : List Ast) (body : List Ast)
  | classDef (name : String) (lineno : Nat) (extra : List Ast) (body : List Ast)
  | ifStmt (lineno : Nat) (children : List Ast)
  | whileStmt (lineno : Nat) (children : List Ast)
  | forStmt (lineno : Nat) (children : List Ast)
  | boolOp (isAnd : Bool) (lineno : Nat) (values : List Ast)
  | exprStmt (lineno : Nat) (value : Ast)
  | strLit (lineno : Nat) (s : String)
  | other (lineno : Nat) (children : List Ast)

mutual

/-- Embeds `ast.walk(node)`: the node itself followed by all descendant
nodes.  (`ast.walk` documents no particular order; we use preorder.) -/
def walk : Ast → List Ast
  | .module b => .module b :: walkList b
  | .functionDef n l ex bd => .functionDef n l ex bd :: (walkList ex ++ walkList bd)
  | .classDef n l ex bd => .classDef n l ex bd :: (walkList ex ++ walkList bd)
  | .ifStmt l cs => .ifStmt l cs :: walkList cs
  | .whileStmt l cs => .whileStmt l cs :: walkList cs
  | .forStmt l cs => .forStmt l cs :: walkList cs
  | .boolOp op l vs => .boolOp op l vs :: walkList vs
  | .exprStmt l v => .exprStmt l v :: walk v
  | .strLit l s => [.strLit l s]
  | .other l cs => .other l cs :: walkList cs

/-- `walk` mapped over a list of sibling nodes. -/
def walkList : List Ast → List Ast
  | [] => []
  | t :: ts => walk t ++ walkList ts

end

/-! ### Text-pattern rules (regex checks of `review_logic.py`) -/

/-- The character class matched by the regex escape `\s` (ASCII range). -/
def isPySpace (c : Char) : Bool :=
  c = ' ' || c = '\t' || c = '\n' || c = '\r' || c = '\x0b' || c = '\x0c'

/-- A double or single quote, the class written `["\x27]` in the patterns. -/
def isQuoteChar (c : Char) : Bool := c = '"' || c = Char.ofNat 39

/-- Length of the longest prefix whose characters satisfy `p`. -/
def leadCount (p : Char → Bool) : List Char → Nat
  | [] => 0
  | c :: cs => if p c then leadCount p cs + 1 else 0

/-- Match a literal word case-insensitively (`re.IGNORECASE`), returning the
rest of the input on success. -/
def matchWordCI : List Char → List Char → Option (List Char)
  | [], cs => some cs
  | _ :: _, [] => none
  | w :: ws, c :: cs => if c.toLower = w.toLower then matchWordCI ws cs else none

/-- Match the common tail of the four credential regexes,
`\s* = \s* quote ([^quotes]+) quote`, returning the number of characters
consumed.  Greedy matching of `\s*` and of the bracket class is
deterministic here because the character that must follow each repetition
is excluded from it. -/
def matchQuotedTail (cs : List Char) : Option Nat :=
  let n1 := leadCount isPySpace cs
  match List.drop n1 cs with
  | '=' :: cs2 =>
    let n2 := leadCount isPySpace cs2
    (match List.drop n2 cs2 with
     | q :: cs4 =>
       if isQuoteChar q then
         let n3 := leadCount (fun c => !(isQuoteChar c)) cs4
         if n3 = 0 then none
         else
           match List.drop n3 cs4 with
           | q2 :: _ => if isQuoteChar q2 then some (n1 + 1 + n2 + 1 + n3 + 1) else none
           | [] => none
       else none
     | [] => none)
  | _ => none

/-- The four credential patterns of `_check_hardcoded_credentials`, in the
order the Python list literal gives them. -/
inductive CredKind where
  | password
  | apikey
  | secret
  | token
deriving DecidableEq, Repr

/-- Try to match one credential pattern at the start of the input,
returning the total number of characters of the match.  `apikey` embeds
`api_?key` with its backtracking over the optional underscore. -/
def matchCred (k : CredKind) (cs : List Char) : Option Nat :=
  match k with
  | .apikey =>
    (match matchWordCI "api".data cs with
     | none => none
     | some rest =>
       let noUnder : Option Nat :=
         match matchWordCI "key".data rest with
         | some rest2 => (matchQuotedTail rest2).map (fun t => 6 + t)
         | none => none
       match rest with
       | c :: rest2 =>
         if c = '_' then
           match matchWordCI "key".data rest2 with
           | some rest3 =>
             (match matchQuotedTail rest3 with
              | some t => some (7 + t)
              | none => noUnder)
           | none => noUnder
         else noUnder
       | [] => noUnder)
  | .password =>
    (match matchWordCI "password".data cs with
     | none => none
     | some rest => (matchQuotedTail rest).map (fun t => 8 + t))
  | .secret =>
    (match matchWordCI "secret".data cs with
     | none => none
     | some rest => (matchQuotedTail rest).map (fun t => 6 + t))
  | .token =>
    (match matchWordCI "token".data cs with
     | none => none
     | some rest => (matchQuotedTail rest).map (fun t => 5 + t))

/-- Scan for non-overlapping leftmost matches, as `re.finditer` does,
returning the start offsets.  The fuel argument starts at the length of
the input; every step either consumes the match (length at least one for
these patterns) or advances one character, so the fuel never runs out. -/
def findFrom (k : CredKind) : Nat → List Char → Nat → List Nat
  | 0, _, _ => []
  | _ + 1, [], _ => []
  | fuel + 1, c :: rest, pos =>
    match matchCred k (c :: rest) with
    | some n => pos :: findFrom k fuel (List.drop (n - 1) rest) (pos + n)
    | none => findFrom k fuel rest (pos + 1)

/-- Start offsets of all `re.finditer` matches of one credential pattern. -/
def findMatches (k : CredKind) (cs : List Char) : List Nat :=
  findFrom k cs.length cs 0

/-- Embeds `content.count(chr(10), 0, match.start()) + 1`: the 1-based
line number of offset `p`. -/
def lineNumber (cs : List Char) (p : Nat) : Nat := (cs.take p).count '\n' + 1

/-- The pattern list of `_check_hardcoded_credentials`, in source order. -/
def credPatterns : List CredKind := [.password, .apikey, .secret, .token]

/-- Embeds `CodeReviewer._check_hardcoded_credentials`: one Security/High
issue per match of each pattern, patterns in list order. -/
def check_hardcoded_credentials (path : String) (content : List Char) : List Issue :=
  credPatterns.flatMap fun k =>
    (findMatches k content).map fun p =>
      { file := path, line := lineNumber content p, category := "Security",
        severity := "High", message := "Potential hardcoded credential detected" }

/-- Does the input start with the given literal characters? -/
def startsWithLit : List Char → List Char → Bool
  | [], _ => true
  | _ :: _, [] => false
  | p :: ps, c :: cs => p = c && startsWithLit ps cs

/-- Non-overlapping leftmost occurrences of a literal pattern (used for the
regex `console\.log\(`, which is a literal string). -/
def findLitFrom (pat : List Char) : Nat → List Char → Nat → List Nat
  | 0, _, _ => []
  | _ + 1, [], _ => []
  | fuel + 1, c :: rest, pos =>
    if startsWithLit pat (c :: rest) then
      pos :: findLitFrom pat fuel (List.drop (pat.length - 1) rest) (pos + pat.length)
    else findLitFrom pat fuel rest (pos + 1)

/-- Embeds `CodeReviewer._check_console_logs`. -/
def check_console_logs (path : String) (content : List Char) : List Issue :=
  (findLitFrom "console.log(".data content.length content 0).map fun p =>
    { file := path, line := lineNumber content p, category := "Debug",
      severity := "Low",
      message := "console.log statement should be removed in production code" }

/-- Split a character list at newline characters (keeping empty pieces),
the semantics of `str.split` with an explicit separator. -/
def splitNl : List Char → List (List Char)
  | [] => [[]]
  | c :: cs =>
    if c = '\n' then [] :: splitNl cs
    else
      match splitNl cs with
      | [] => [[c]]
      | l :: ls => (c :: l) :: ls

/-- Embeds `content.split(chr(10))`. -/
def splitLines (content : String) : List String := (splitNl content.data).map String.mk

/-- Embeds `CodeReviewer._check_line_length` (limit 100 characters). -/
def check_line_length (path : String) (content : String) : List Issue :=
  (splitLines content).enum.filterMap fun e =>
    if e.2.data.length > 100 then
      some { file := path, line := e.1 + 1, category := "Style", severity := "Low",
             message := "Line exceeds 100 characters (length: " ++ toString e.2.data.length ++ ")" }
    else none

/-- Embeds `CodeReviewer._check_trailing_whitespace`: a non-empty line
whose final character is whitespace. -/
def check_trailing_whitespace (path : String) (content : String) : List Issue :=
  (splitLines content).enum.filterMap fun e =>
    if (match e.2.data.getLast? with | some c => isPySpace c | none => false) then
      some { file := path, line := e.1 + 1, category := "Style", severity := "Low",
             message := "Line has trailing whitespace" }
    else none

/-! ### Structural rules (AST checks of `review_logic.py`) -/

/-- Embeds the docstring test of `_check_docstrings`: the first statement
of the body is a bare string-literal expression (`ast.Expr` wrapping a
string constant). -/
def hasDocstring : List Ast → Bool
  | .exprStmt _ (.strLit _ _) :: _ => true
  | _ => false

/-- One step of `_check_docstrings`.  Outer `none` models the
`AttributeError` raised when `node.lineno` is read on an `ast.Module`
object (module nodes carry no `lineno`); `some none` means no finding for
this node; `some (some i)` is an emitted issue. -/
def docStep (path : String) : Ast → Option (Option Issue)
  | .module body => if hasDocstring body then some none else none
  | .functionDef name l _ body =>
    if hasDocstring body || startsWithLit "_".data name.data then some none
    else
      some (some { file := path, line := l, category := "Documentation",
                   severity := "Medium",
                   message := "Missing docstring for function " ++ sq ++ name ++ sq })
  | .classDef name l _ body =>
    if hasDocstring body then some none
    else
      some (some { file := path, line := l, category := "Documentation",
                   severity := "Medium",
                   message := "Missing docstring for class " ++ sq ++ name ++ sq })
  | _ => some none

/-- Iterate `docStep` over the walked nodes.  The boolean records whether
the `AttributeError` fired; issues emitted before the error are kept, as
they were already appended to `self.issues`. -/
def docGo (path : String) : List Ast → List Issue × Bool
  | [] => ([], false)
  | n :: ns =>
    match docStep path n with
    | none => ([], true)
    | some none => docGo path ns
    | some (some i) =>
      let r := docGo path ns
      (i :: r.1, r.2)

/-- Embeds `CodeReviewer._check_docstrings`. -/
def check_docstrings (path : String) (tree : Ast) : List Issue × Bool :=
  docGo path (walk tree)

/-- ASCII upper-case letter. -/
def isUpperAZ (c : Char) : Bool := 'A' ≤ c && c ≤ 'Z'

/-- ASCII lower-case letter. -/
def isLowerAZ (c : Char) : Bool := 'a' ≤ c && c ≤ 'z'

/-- ASCII digit. -/
def isDigit09 (c : Char) : Bool := '0' ≤ c && c ≤ '9'

/-- Embeds `re.match` of `^[A-Z][a-zA-Z0-9]*$` against a name (AST names
contain no newline, so `$` is a plain end anchor). -/
def camelOk (name : String) : Bool :=
  match name.data with
  | [] => false
  | c :: rest => isUpperAZ c && rest.all fun x => isUpperAZ x || isLowerAZ x || isDigit09 x

/-- Embeds `re.match` of `^[a-z][a-z0-9_]*$` against a name. -/
def snakeOk (name : String) : Bool :=
  match name.data with
  | [] => false
  | c :: rest => isLowerAZ c && rest.all fun x => isLowerAZ x || isDigit09 x || x = '_'

/-- One step of `_check_naming_conventions`. -/
def namingStep (path : String) : Ast → Option Issue
  | .classDef name l _ _ =>
    if camelOk name then none
    else
      some { file := path, line := l, category := "Style", severity := "Low",
             message := "Class " ++ sq ++ name ++ sq ++ " doesn" ++ sq ++
               "t follow CamelCase naming convention" }
  | .functionDef name l _ _ =>
    if startsWithLit "__".data name.data || snakeOk name then none
    else
      some { file := path, line := l, category := "Style", severity := "Low",
             message := "Function " ++ sq ++ name ++ sq ++ " doesn" ++ sq ++
               "t follow snake_case naming convention" }
  | _ => none

/-- Embeds `CodeReviewer._check_naming_conventions`. -/
def check_naming_conventions (path : String) (tree : Ast) : List Issue :=
  (walk tree).filterMap (namingStep path)

/-- The per-node contribution inside `_calculate_complexity`: conditional
and loop constructs add one, `and`-chains add their operand count minus
one, everything else adds nothing. -/
def complexityStep (acc : Int) (sub : Ast) : Int :=
  match sub with
  | .ifStmt _ _ => acc + 1
  | .whileStmt _ _ => acc + 1
  | .forStmt _ _ => acc + 1
  | .boolOp true _ vs => acc + ((vs.length : Int) - 1)
  | _ => acc

/-- Embeds `CodeReviewer._calculate_complexity`: start at 1 and fold the
per-node contributions over the subtree. -/
def calculate_complexity (node : Ast) : Int :=
  (walk node).foldl complexityStep 1

/-- Embeds `CodeReviewer._check_function_complexity` (threshold 10). -/
def check_function_complexity (path : String) (tree : Ast) : List Issue :=
  (walk tree).filterMap fun n =>
    match n with
    | .functionDef name l ex bd =>
      let c := calculate_complexity (.functionDef name l ex bd)
      if c > 10 then
        some { file := path, line := l, category := "Maintainability", severity := "Medium",
               message := "Function " ++ sq ++ name ++ sq ++
                 " has high cyclomatic complexity (" ++ toString c ++ ")" }
      else none
    | _ => none

/-! ### Template loading and the review driver -/

/-- Embeds Python `str.strip()` restricted to the `\s` class. -/
def pyStrip (s : String) : String :=
  String.mk (((s.data.dropWhile isPySpace).reverse.dropWhile isPySpace).reverse)

/-- Insertion-ordered dictionary write: replace the value in place when
the key exists, otherwise append the pair. -/
def setSection (m : List (String × List String)) (k : String) (v : List String) :
    List (String × List String) :=
  match m with
  | [] => [(k, v)]
  | (k1, v1) :: rest => if k1 = k then (k1, v) :: rest else (k1, v1) :: setSection rest k v

/-- Append an item to the checklist of an existing section. -/
def appendItem (m : List (String × List String)) (k : String) (item : String) :
    List (String × List String) :=
  match m with
  | [] => []
  | (k1, v1) :: rest =>
    if k1 = k then (k1, v1 ++ [item]) :: rest else (k1, v1) :: appendItem rest k item

/-- Embeds `CodeReviewer._parse_template`: `##`-prefixed lines open a
section, `- [ ] `-prefixed lines add checklist items to the current
section (skipped when the current section name is empty or absent,
mirroring Python truthiness of `current_section`). -/
def parse_template (content : String) : List (String × List String) :=
  (((splitLines content).foldl
    (fun acc line =>
      if startsWithLit "## ".data line.data then
        let name := pyStrip (String.mk (line.data.drop 3))
        (setSection acc.1 name [], some name)
      else if startsWithLit "- [ ] ".data line.data then
        match acc.2 with
        | some name =>
          if name = "" then acc
          else (appendItem acc.1 name (pyStrip (String.mk (line.data.drop 6))), acc.2)
        | none => acc
      else acc)
    (([] : List (String × List String)), (none : Option String)))).1

/-- Embeds `CodeReviewer.load_template`: the argument is the content of
the template file, `none` standing for the `FileNotFoundError` branch,
which returns the empty dictionary. -/
def load_template (tc : Option String) : List (String × List String) :=
  match tc with
  | none => []
  | some c => parse_template c

/-- Embeds `os.path.splitext(path)[1].lower()`: the extension starts at
the last dot of the final path component, except when that component has
nothing but dots before it. -/
def fileExt (path : String) : String :=
  let base := ((path.data.reverse.takeWhile (fun c => c ≠ '/'))).reverse
  let revAfter := base.reverse.takeWhile (fun c => c ≠ '.')
  if revAfter.length = base.length then ""
  else
    let stem := base.take (base.length - revAfter.length - 1)
    if stem.all (fun c => c = '.') then ""
    else String.mk (('.' :: revAfter.reverse).map Char.toLower)

/-- The driver-level counters of `CodeReviewer.stats`. -/
structure ReviewStats where
  files_reviewed : Nat
  issues_found : Nat
  issue_types : List (String × Nat)
deriving DecidableEq, Repr

/-- The mutable state of a `CodeReviewer` instance that the claims
observe: the per-call issue list and the accumulated statistics. -/
structure Reviewer where
  issues : List Issue
  stats : ReviewStats
deriving DecidableEq, Repr

/-- A freshly constructed `CodeReviewer`. -/
def Reviewer.init : Reviewer :=
  { issues := [], stats := { files_reviewed := 0, issues_found := 0, issue_types := [] } }

/-- Embeds `stats[issue_types][cat] = stats[issue_types].get(cat, 0) + 1`
with dictionary update-or-append semantics. -/
def bumpCount (m : List (String × Nat)) (k : String) : List (String × Nat) :=
  match m with
  | [] => [(k, 1)]
  | (k1, v) :: rest => if k1 = k then (k1, v + 1) :: rest else (k1, v) :: bumpCount rest k

/-- The statistics update at the end of a successful `review_file` call. -/
def update_stats (st : ReviewStats) (issues : List Issue) : ReviewStats :=
  { files_reviewed := st.files_reviewed + 1
    issues_found := st.issues_found + issues.length
    issue_types := issues.foldl (fun m i => bumpCount m i.category) st.issue_types }

/-- Outcome of the external `ast.parse` call on the file content. -/
inductive ParseResult where
  | ok (tree : Ast)
  | syntaxError (lineno : Nat) (msg : String)

/-- The normal exit of `review_file`: the collected issues are returned
and the statistics are updated. -/
def finishReview (issues : List Issue) (r0 : Reviewer) : List Issue × Reviewer :=
  (issues, { issues := issues, stats := update_stats r0.stats issues })

/-- Embeds `CodeReviewer._review_python_file` together with the
exception handling of `review_file` around it: a parse failure yields one
Syntax/High issue; an `AttributeError` escaping `_check_docstrings`
reaches the catch-all in `review_file`, which returns the empty list
without updating the statistics (the issues appended before the error
stay on the instance). -/
def review_python (path : String) (content : String) (pr : ParseResult) (r0 : Reviewer) :
    List Issue × Reviewer :=
  match pr with
  | .syntaxError l m =>
    finishReview
      [{ file := path, line := l, category := "Syntax", severity := "High",
         message := "Syntax error: " ++ m }] r0
  | .ok tree =>
    let cred := check_hardcoded_credentials path content.data
    let doc := check_docstrings path tree
    if doc.2 then ([], { r0 with issues := cred ++ doc.1 })
    else
      finishReview
        (cred ++ doc.1 ++ check_naming_conventions path tree ++
          check_function_complexity path tree) r0

/-- Embeds `CodeReviewer.review_file`.  `tc` is the template file content
(`none` = file not found), `fc` is the reviewed file content (`none` = the
read raised, caught by the catch-all handler), `pr` is the outcome
`ast.parse` would produce on the content. -/
def review_file (tc : Option String) (fc : Option String) (path : String)
    (pr : ParseResult) (r : Reviewer) : List Issue × Reviewer :=
  let r0 : Reviewer := { r with issues := [] }
  if load_template tc = [] then ([], r0)
  else
    match fc with
    | none => ([], r0)
    | some content =>
      let ext := fileExt path
      if ext = ".py" then review_python path content pr r0
      else if ext = ".js" || ext = ".ts" then
        finishReview
          (check_console_logs path content.data ++
            check_hardcoded_credentials path content.data) r0
      else
        finishReview
          (check_line_length path content ++ check_trailing_whitespace path content) r0

/-! ### Report generation -/

/-- Group issues by file in first-seen order, appending within a group,
as the `issues_by_file` loop of `generate_review_report` does. -/
def appendGroup : List (String × List Issue) → String → Issue → List (String × List Issue)
  | [], k, i => [(k, [i])]
  | (k1, l) :: rest, k, i =>
    if k1 = k then (k1, l ++ [i]) :: rest else (k1, l) :: appendGroup rest k i

/-- Issues bucketed per file, first-seen file order. -/
def groupByFile (issues : List Issue) : List (String × List Issue) :=
  issues.foldl (fun acc i => appendGroup acc i.file i) []

/-- Embeds `chr(10).join(report)`. -/
def joinNl : List String → String
  | [] => ""
  | [s] => s
  | s :: rest => s ++ "\n" ++ joinNl rest

/-- The fixed report returned when there are no issues to render. -/
def no_issues_report : String :=
  "# Code Review Report\n\nNo issues found in the code review."

/-- Embeds `CodeReviewer.generate_review_report`.  `issuesArg = none`
models the `None` default; the Python expression
`issues = issues or self.issues` also replaces an explicitly passed empty
list by the accumulated `self.issues`. -/
def generate_review_report (r : Reviewer) (issuesArg : Option (List Issue)) : String :=
  let issues :=
    match issuesArg with
    | none => r.issues
    | some l => if l.isEmpty then r.issues else l
  if issues.isEmpty then no_issues_report
  else
    let byFile := groupByFile issues
    let header :=
      ["# Code Review Report\n", "## Summary\n",
       "- Files reviewed: " ++ toString r.stats.files_reviewed,
       "- Total issues found: " ++ toString r.stats.issues_found,
       "\n### Issues by Category\n"]
    let catLines := r.stats.issue_types.map fun e => "- " ++ e.1 ++ ": " ++ toString e.2
    let blocks := byFile.flatMap fun e =>
      ("### File: " ++ bq ++ e.1 ++ bq ++ "\n") ::
        (["High", "Medium", "Low"].flatMap fun sev =>
          let sevIssues := e.2.filter fun i => i.severity == sev
          if sevIssues.isEmpty then []
          else
            ("#### " ++ sev ++ " Severity Issues\n") ::
              ((sevIssues.map fun i =>
                "- **Line " ++ toString i.line ++ "** (" ++ i.category ++ "): " ++ i.message) ++
                [""]))
    joinNl (header ++ catLines ++ ["\n## Detailed Findings\n"] ++ blocks)

end CodeReview

namespace Metrics

/-! ### The `Metrics` class of `metrics.py`

Timestamps (ISO strings in the source) are modelled as rational numbers;
Python floats are modelled as rationals.  The nested dictionaries
`timing`, `issues` and `file_metrics` become insertion-ordered association
lists, because `get_metrics` performs `self._metrics.copy()` - a shallow
copy - and then writes derived entries through the shared nested
dictionaries, so the stored `issues` dictionary can acquire keys beyond
the five built-in counters. -/

/-- Association-list lookup (Python `d[k]` / `k in d`). -/
def alookup (k : String) : List (String × α) → Option α
  | [] => none
  | (k1, v) :: rest => if k1 = k then some v else alookup k rest

/-- Dictionary write: update in place when present, append otherwise. -/
def aset (k : String) (v : α) : List (String × α) → List (String × α)
  | [] => [(k, v)]
  | (k1, v1) :: rest => if k1 = k then (k1, v) :: rest else (k1, v1) :: aset k v rest

/-- One entry of `issue_details`. -/
structure IssueDetail where
  type : String
  line : Option Nat
  description : Option String
deriving DecidableEq, Repr

/-- The per-file record stored in `_metrics[file_metrics]`. -/
structure FileMetric where
  lines_reviewed : Nat
  total_lines : Nat
  coverage_percent : Rat
  review_time : Option Rat
  issues : List (String × Nat)
  issue_details : Option (List IssueDetail)
deriving DecidableEq, Repr

/-- The `coverage` sub-dictionary.  The two percentage fields are absent
until the first `get_metrics` call writes them through the shared
reference (`Option` models key presence). -/
structure Coverage where
  files_reviewed : Nat
  lines_reviewed : Nat
  total_files : Nat
  total_lines : Nat
  file_coverage_percent : Option Rat
  line_coverage_percent : Option Rat
deriving DecidableEq, Repr

/-- The state behind `Metrics._metrics`. -/
structure State where
  review_start_time : Rat
  timing : List (String × List Rat)
  coverage : Coverage
  issues : List (String × Rat)
  file_metrics : List (String × FileMetric)
deriving DecidableEq, Repr

/-- The value `get_metrics` returns (the top-level dictionary is a copy,
so the extra top-level keys live only here; the nested dictionaries are
shared with the state). -/
structure Snapshot where
  review_start_time : Rat
  timing : List (String × List Rat)
  coverage : Coverage
  issues : List (String × Rat)
  file_metrics : List (String × FileMetric)
  review_end_time : Rat
  total_duration_seconds : Rat
deriving DecidableEq, Repr

/-- The five built-in issue counters, in the order `__init__` lists them. -/
def initIssueKeys : List String := ["security", "performance", "style", "logic", "other"]

/-- Fresh per-file issue counters. -/
def initFileIssues : List (String × Nat) :=
  [("security", 0), ("performance", 0), ("style", 0), ("logic", 0), ("other", 0)]

/-- Embeds `Metrics.__init__` (the start time is the construction-time
clock value, a parameter here). -/
def init (start : Rat) : State :=
  { review_start_time := start
    timing := []
    coverage :=
      { files_reviewed := 0, lines_reviewed := 0, total_files := 0, total_lines := 0,
        file_coverage_percent := none, line_coverage_percent := none }
    issues :=
      [("security", 0), ("performance", 0), ("style", 0), ("logic", 0), ("other", 0)]
    file_metrics := [] }

/-- Embeds `Metrics.record_file_review`: bump the two coverage counters
and create/overwrite the per-file record (with `review_time` set to
`None`, as the fresh dictionary literal does). -/
def record_file_review (filename : String) (lines_reviewed total_lines : Nat)
    (s : State) : State :=
  { s with
    coverage :=
      { s.coverage with
        files_reviewed := s.coverage.files_reviewed + 1
        lines_reviewed := s.coverage.lines_reviewed + lines_reviewed }
    file_metrics :=
      aset filename
        { lines_reviewed := lines_reviewed
          total_lines := total_lines
          coverage_percent :=
            if total_lines > 0 then
              (lines_reviewed : Rat) / (total_lines : Rat) * 100
            else 100
          review_time := none
          issues := initFileIssues
          issue_details := none }
        s.file_metrics }

/-- Embeds `Metrics.set_total_codebase_size`. -/
def set_total_codebase_size (files lines : Nat) (s : State) : State :=
  { s with coverage := { s.coverage with total_files := files, total_lines := lines } }

/-- Embeds `Metrics.record_issue`.  An issue type that is not a key of
the (current) global issue dictionary is remapped to `other`.  The
per-file counter update is guarded by key presence (the source would
raise `KeyError` for a remapped key missing from the per-file table;
none of the recorded types exercised here hit that corner). -/
def record_issue (issue_type : String) (filename : String)
    (line_number : Option Nat) (description : Option String) (s : State) : State :=
  let ty := if alookup issue_type s.issues = none then "other" else issue_type
  let issues1 :=
    match alookup ty s.issues with
    | some v => aset ty (v + 1) s.issues
    | none => s.issues
  match alookup filename s.file_metrics with
  | none => { s with issues := issues1 }
  | some fm =>
    let fm1 :=
      { fm with
        issues :=
          match alookup ty fm.issues with
          | some n => aset ty (n + 1) fm.issues
          | none => fm.issues }
    let wantDetail : Bool :=
      (match line_number with | some n => n != 0 | none => false) ||
      (match description with | some d => d != "" | none => false)
    let fm2 :=
      if wantDetail then
        { fm1 with
          issue_details :=
            some ((fm1.issue_details.getD []) ++
              [{ type := ty, line := line_number, description := description }]) }
      else fm1
    { s with issues := issues1, file_metrics := aset filename fm2 s.file_metrics }

/-- Embeds the timing bookkeeping of the `timed` decorator wrapper
(lines 217-225 of `metrics.py`): append the elapsed time to the named
category sample list, and when a filename is supplied and registered, set
the `review_time` of that file metric (last write wins). -/
def record_timing (category : String) (elapsed : Rat) (filename : Option String)
    (s : State) : State :=
  let timing1 :=
    match alookup category s.timing with
    | some l => aset category (l ++ [elapsed]) s.timing
    | none => aset category ([] ++ [elapsed]) s.timing
  let fm1 :=
    match filename with
    | none => s.file_metrics
    | some f =>
      match alookup f s.file_metrics with
      | some fm => aset f { fm with review_time := some elapsed } s.file_metrics
      | none => s.file_metrics
  { s with timing := timing1, file_metrics := fm1 }

/-- Sum of all values of the issue dictionary (`sum(d.values())`). -/
def sumValues (m : List (String × Rat)) : Rat := (m.map Prod.snd).sum

/-- Embeds `Metrics.get_metrics`.  `now` is the wall-clock value used for
the end time.  The derived coverage percentages and the `total` and
`issues_per_1000_lines` entries are written through the shallow copy into
the shared nested dictionaries, so they also land in the returned new
state; the two top-level keys (`review_end_time`,
`total_duration_seconds`) exist only in the returned snapshot. -/
def get_metrics (now : Rat) (s : State) : Snapshot × State :=
  let fcp : Rat :=
    if s.coverage.total_files > 0 then
      (s.coverage.files_reviewed : Rat) / (s.coverage.total_files : Rat) * 100
    else 0
  let lcp : Rat :=
    if s.coverage.total_lines > 0 then
      (s.coverage.lines_reviewed : Rat) / (s.coverage.total_lines : Rat) * 100
    else 0
  let coverage1 :=
    { s.coverage with file_coverage_percent := some fcp, line_coverage_percent := some lcp }
  let total := sumValues s.issues
  let issues1 := aset "total" total s.issues
  let density : Rat :=
    if s.coverage.lines_reviewed > 0 then
      total / (s.coverage.lines_reviewed : Rat) * 1000
    else 0
  let issues2 := aset "issues_per_1000_lines" density issues1
  (⟨s.review_start_time, s.timing, coverage1, issues2, s.file_metrics,
     now, now - s.review_start_time⟩,
   { s with coverage := coverage1, issues := issues2 })

end Metrics

open CodeReview Metrics

/-! ### Specification-side helper definitions -/

/-- A conditional or loop construct (the nodes `_calculate_complexity`
counts one point for). -/
def condNode : Ast → Bool
  | .ifStmt _ _ => true
  | .whileStmt _ _ => true
  | .forStmt _ _ => true
  | _ => false

/-- The complexity contribution of an `and`-chain: operand count minus
one; zero for every other node. -/
def andWeight : Ast → Int
  | .boolOp true _ vs => (vs.length : Int) - 1
  | _ => 0

/-- Number of conditional/loop constructs in a node list. -/
def condCount (l : List Ast) : Nat := l.countP fun t => condNode t

/-- Total `and`-chain contribution of a node list. -/
def andExcess (l : List Ast) : Int := (l.map andWeight).sum

/-- Every `and`-chain in the list has at least one operand (the Python
parser in fact guarantees at least two). -/
def andOperandsOk (l : List Ast) : Bool :=
  l.all fun t => match t with | .boolOp true _ vs => !vs.isEmpty | _ => true

/-- The list contains no `and`-chain boolean expression at all. -/
def noAndChains (l : List Ast) : Bool :=
  l.all fun t => match t with | .boolOp true _ _ => false | _ => true

/-- The docstring policy the code actually implements, per node: classes
without a docstring and functions without a docstring whose name does not
start with an underscore are flagged; module nodes never produce an issue
(a module without a docstring raises instead, which the hypothesis of the
characterisation theorem rules out). -/
def docIssueSpec (path : String) : Ast → Option Issue
  | .functionDef name l _ body =>
    if hasDocstring body || startsWithLit "_".data name.data then none
    else
      some { file := path, line := l, category := "Documentation", severity := "Medium",
             message := "Missing docstring for function " ++ sq ++ name ++ sq }
  | .classDef name l _ body =>
    if hasDocstring body then none
    else
      some { file := path, line := l, category := "Documentation", severity := "Medium",
             message := "Missing docstring for class " ++ sq ++ name ++ sq }
  | _ => none

/-- Every module node in the tree carries a docstring, so the
`AttributeError` of the docstring check cannot fire. -/
def moduleCrashFree (tree : Ast) : Bool :=
  (walk tree).all fun n => match n with | .module b => hasDocstring b | _ => true

/-- Sum of the five built-in category counters of an issue dictionary
(missing keys count zero), the quantity the spec calls `issues.total`. -/
def builtinIssueSum (m : List (String × Rat)) : Rat :=
  (initIssueKeys.map fun k => (alookup k m).getD 0).sum

/-! ### Concrete sample inputs used by counterexamples and witnesses -/

/-- A present, non-empty review template. -/
def tplPresent : Option String := some "## A\n- [ ] x"

/-- File content consisting of one hardcoded-password assignment and no
module docstring. -/
def pwContent : String := "password = \"hunter2\""

/-- The module body `ast.parse` produces for `pwContent`: a single
assignment statement (no docstring). -/
def pwBodyNoDoc : List Ast := [.other 1 [.other 1 [], .strLit 1 "hunter2"]]

/-- The parse tree of `pwContent`. -/
def pwTreeNoDoc : Ast := .module pwBodyNoDoc

/-- The same password assignment preceded by a module docstring. -/
def pwDocContent : String := "\"\"\"d\"\"\"\npassword = \"hunter2\""

/-- The parse tree of `pwDocContent`: docstring expression, then the
assignment. -/
def pwTreeDoc : Ast :=
  .module [.exprStmt 1 (.strLit 1 "d"), .other 2 [.other 2 [], .strLit 2 "hunter2"]]

/-- A module (with docstring) whose only function is a dunder-named
`__init__` without a docstring. -/
def dunderTree : Ast :=
  .module [.exprStmt 1 (.strLit 1 "d"), .functionDef "__init__" 2 [] [.other 3 []]]

/-- A module with a docstring, a class `Bad` without one, an
underscore-named function and a public function without one. -/
def docWitnessTree : Ast :=
  .module [.exprStmt 1 (.strLit 1 "d"), .classDef "Bad" 2 [] [.other 3 []],
           .functionDef "_h" 4 [] [.other 5 []], .functionDef "pub" 5 [] [.other 6 []]]

/-- Generic file content whose first line ends in a space. -/
def twContent : String := "x \nok"

/-- The trailing-whitespace finding `twContent` produces on `n.txt`. -/
def twIssue : Issue :=
  { file := "n.txt", line := 1, category := "Style", severity := "Low",
    message := "Line has trailing whitespace" }

/-- A function with two `if` statements and no boolean chains
(complexity 3). -/
def sampleFn : Ast := .functionDef "f" 1 [] [.ifStmt 2 [], .ifStmt 3 []]

/-- A reviewer instance that has accumulated one issue. -/
def accReviewer : Reviewer :=
  { issues := [{ file := "a.py", line := 3, category := "Style", severity := "Low",
                 message := "m" }],
    stats := { files_reviewed := 1, issues_found := 1, issue_types := [("Style", 1)] } }

/-- Metrics state after recording one security issue (no file registered),
started at clock 0. -/
def mOneIssue : Metrics.State := record_issue "security" "f" none none (Metrics.init 0)

/-- Metrics state: one file recorded (10 of 20 lines). -/
def mFileOnly : Metrics.State := record_file_review "f" 10 20 (Metrics.init 0)

/-- ... then a timing observation of 7 seconds tied to that file. -/
def mFileTimed : Metrics.State := record_timing "review" 7 (some "f") mFileOnly

/-- ... then the same file recorded again. -/
def mFileAgain : Metrics.State := record_file_review "f" 5 20 mFileTimed

/-! ### Helper lemmas -/

/-- Looking up a key just written returns the written value. -/
theorem alookup_aset_self (k : String) (v : α) (m : List (String × α)) :
    alookup k (aset k v m) = some v := by
  induction m with
  | nil => simp [aset, alookup]
  | cons e rest ih =>
    by_cases h : e.1 = k
    · simp [aset, alookup, h]
    · simp [aset, alookup, h, ih]

/-- The docstring scan over a node list whose module nodes all carry
docstrings emits exactly the per-node policy findings and does not raise. -/
theorem docGo_eq_filterMap (path : String) (l : List Ast)
    (h : (l.all fun n => match n with | .module b => hasDocstring b | _ => true) = true) :
    docGo path l = (l.filterMap (docIssueSpec path), false) := by
  induction l with
  | nil => rfl
  | cons n ns ih =>
    rw [List.all_cons, Bool.and_eq_true] at h
    obtain ⟨h1, h2⟩ := h
    cases n with
    | module b =>
      have h1' : hasDocstring b = true := h1
      simp [docGo, docStep, docIssueSpec, h1', ih h2]
    | functionDef name l ex bd =>
      by_cases hc : (hasDocstring bd || startsWithLit "_".data name.data) = true
      · simp [docGo, docStep, docIssueSpec, hc, ih h2]
      · simp [docGo, docStep, docIssueSpec, hc, ih h2]
    | classDef name l ex bd =>
      by_cases hc : hasDocstring bd = true
      · simp [docGo, docStep, docIssueSpec, hc, ih h2]
      · simp [docGo, docStep, docIssueSpec, hc, ih h2]
    | ifStmt l cs => simp [docGo, docStep, docIssueSpec, ih h2]
    | whileStmt l cs => simp [docGo, docStep, docIssueSpec, ih h2]
    | forStmt l cs => simp [docGo, docStep, docIssueSpec, ih h2]
    | boolOp b l vs => simp [docGo, docStep, docIssueSpec, ih h2]
    | exprStmt l v => simp [docGo, docStep, docIssueSpec, ih h2]
    | strLit l s => simp [docGo, docStep, docIssueSpec, ih h2]
    | other l cs => simp [docGo, docStep, docIssueSpec, ih h2]

/-- A module node without a docstring makes the docstring check raise at
once: no issues, crash flag set. -/
theorem check_docstrings_module_crash (path : String) (body : List Ast)
    (h : hasDocstring body = false) :
    check_docstrings path (.module body) = ([], true) := by
  simp [check_docstrings, walk, docGo, docStep, h]

/-- Decomposition of the complexity fold: any start value plus the
conditional count plus the `and`-chain contribution. -/
theorem foldl_complexityStep (l : List Ast) (a : Int) :
    l.foldl complexityStep a = a + (condCount l : Int) + andExcess l := by
  induction l generalizing a with
  | nil => simp [condCount, andExcess]
  | cons x xs ih =>
    rw [List.foldl_cons, ih]
    have hx : complexityStep a x = a + (if condNode x then 1 else 0) + andWeight x := by
      cases x with
      | boolOp b ln vs => cases b <;> simp [complexityStep, condNode, andWeight]
      | _ => simp [complexityStep, condNode, andWeight]
    rw [hx]
    simp only [condCount, andExcess, List.countP_cons, List.map_cons, List.sum_cons]
    push_cast
    by_cases hc : condNode x = true <;> simp [hc] <;> ring

/-- With every `and`-chain non-empty, the chain contribution is
non-negative. -/
theorem andExcess_nonneg (l : List Ast) (h : andOperandsOk l = true) :
    0 ≤ andExcess l := by
  induction l with
  | nil => simp [andExcess]
  | cons x xs ih =>
    rw [andOperandsOk, List.all_cons, Bool.and_eq_true] at h
    obtain ⟨h1, h2⟩ := h
    have hx : 0 ≤ andWeight x := by
      cases x with
      | boolOp b ln vs =>
        cases b with
        | false => simp [andWeight]
        | true =>
          simp only [Bool.not_eq_eq_eq_not, Bool.not_true, List.isEmpty_eq_false] at h1
          have : vs.length ≠ 0 := by
            simpa [List.length_eq_zero] using h1
          have : 1 ≤ (vs.length : Int) := by omega
          simp [andWeight]; omega
      | _ => simp [andWeight]
    have hxs : 0 ≤ andExcess xs := ih h2
    simp only [andExcess, List.map_cons, List.sum_cons] at *
    omega

/-- With no `and`-chain at all, the chain contribution vanishes. -/
theorem andExcess_eq_zero (l : List Ast) (h : noAndChains l = true) :
    andExcess l = 0 := by
  induction l with
  | nil => simp [andExcess]
  | cons x xs ih =>
    rw [noAndChains, List.all_cons, Bool.and_eq_true] at h
    obtain ⟨h1, h2⟩ := h
    have hx : andWeight x = 0 := by
      cases x with
      | boolOp b ln vs => cases b <;> simp_all [andWeight]
      | _ => simp [andWeight]
    simp only [andExcess, List.map_cons, List.sum_cons] at *
    rw [hx, ih h2]
    ring

/-! ### Claim theorems -/

/-- C10: when the reviewed file cannot be read, `review_file` returns the
empty issue list and leaves the reviewer statistics untouched (the
per-call issue buffer is reset, as `review_file` does on entry); in the
embedding `review_file` is a total function, reflecting that the
catch-all handler converts read failures into an empty result instead of
propagating them. -/
theorem review_file_read_failure_returns_empty (tc : Option String) (path : String)
    (pr : ParseResult) (r : Reviewer) :
    review_file tc none path pr r = ([], { r with issues := [] }) := by
  unfold review_file
  by_cases h : load_template tc = []
  · rw [if_pos h]
  · rw [if_neg h]

/-- C5 (amended): a template that is missing (or otherwise loads as the
empty section map) makes `review_file` return the empty issue list at
once, without running any check and without touching the statistics -
template presence does gate the checks. -/
theorem review_file_missing_template_returns_empty (tc fc : Option String) (path : String)
    (pr : ParseResult) (r : Reviewer) (h : load_template tc = []) :
    review_file tc fc path pr r = ([], { r with issues := [] }) := by
  unfold review_file
  rw [if_pos h]

/-- C5 witness: instantiation at a missing template and a concrete
generic file. -/
theorem review_file_missing_template_returns_empty_witness :
    load_template none = [] ∧
    review_file none (some twContent) "n.txt" (.ok pwTreeDoc) Reviewer.init =
      ([], { Reviewer.init with issues := [] }) :=
  ⟨rfl, review_file_missing_template_returns_empty none (some twContent) "n.txt"
    (.ok pwTreeDoc) Reviewer.init rfl⟩

/-- C5 counterexample: the same generic file reviewed with a missing
template yields no issues, while with a present template it yields its
trailing-whitespace finding, so a missing template does not produce "the
same issue list" - it suppresses the checks. -/
theorem review_file_template_gates_checks :
    (review_file none (some twContent) "n.txt" (.ok pwTreeDoc) Reviewer.init).1 = [] ∧
    (review_file tplPresent (some twContent) "n.txt" (.ok pwTreeDoc) Reviewer.init).1 =
      [twIssue] ∧
    ([] : List Issue) ≠ [twIssue] := by
  exact ⟨by decide, by decide, by decide⟩

/-- C4: a syntactically valid primary-language file whose module lacks a
docstring makes `review_file` return the empty issue list with the
statistics unchanged, whatever findings the content would otherwise
produce: the docstring check reads `lineno` on the module node, the
`AttributeError` reaches the catch-all handler, and the collected
findings are dropped from the returned list. -/
theorem review_file_no_module_docstring_returns_empty (tc : Option String)
    (content path : String) (body : List Ast) (r : Reviewer)
    (hext : fileExt path = ".py") (hdoc : hasDocstring body = false) :
    (review_file tc (some content) path (.ok (.module body)) r).1 = [] ∧
    (review_file tc (some content) path (.ok (.module body)) r).2.stats = r.stats := by
  unfold review_file
  by_cases h : load_template tc = []
  · rw [if_pos h]
    exact ⟨rfl, rfl⟩
  · rw [if_neg h]
    simp only [hext, if_pos]
    unfold review_python
    simp [check_docstrings_module_crash path body hdoc]

/-- C4 witness: the single-assignment password file without a module
docstring returns no issues and leaves the statistics alone. -/
theorem review_file_no_module_docstring_returns_empty_witness :
    fileExt "a.py" = ".py" ∧ hasDocstring pwBodyNoDoc = false ∧
    ((review_file tplPresent (some pwContent) "a.py" (.ok (.module pwBodyNoDoc))
        Reviewer.init).1 = [] ∧
     (review_file tplPresent (some pwContent) "a.py" (.ok (.module pwBodyNoDoc))
        Reviewer.init).2.stats = Reviewer.init.stats) :=
  ⟨by decide, by decide,
    review_file_no_module_docstring_returns_empty tplPresent pwContent "a.py" pwBodyNoDoc
      Reviewer.init (by decide) (by decide)⟩

/-- C6 (amended): `record_file_review` increments `files_reviewed` by one
and `lines_reviewed` by the given amount on every call, creates or
overwrites the FileMetric with the stated coverage percentage - and with
`review_time` reset to unset: a review time previously stored for the
same filename by a timing observation is lost, not preserved. Timing
samples and global issue counters are untouched. -/
theorem record_file_review_spec (s : Metrics.State) (filename : String) (lr tl : Nat) :
    (record_file_review filename lr tl s).coverage.files_reviewed
        = s.coverage.files_reviewed + 1 ∧
    (record_file_review filename lr tl s).coverage.lines_reviewed
        = s.coverage.lines_reviewed + lr ∧
    alookup filename (record_file_review filename lr tl s).file_metrics =
      some { lines_reviewed := lr, total_lines := tl,
             coverage_percent := if tl > 0 then (lr : Rat) / (tl : Rat) * 100 else 100,
             review_time := none, issues := initFileIssues, issue_details := none } ∧
    (record_file_review filename lr tl s).timing = s.timing ∧
    (record_file_review filename lr tl s).issues = s.issues :=
  ⟨rfl, rfl, alookup_aset_self filename _ s.file_metrics, rfl, rfl⟩

/-- C6 counterexample: after `record_file_review f 10 20`, a timing
observation sets the review time of `f` to 7; a second
`record_file_review f 5 20` resets it to unset, so the review time is not
preserved across the later call, contrary to the claim. -/
theorem record_file_review_resets_review_time :
    (alookup "f" mFileTimed.file_metrics).map (fun m => m.review_time) = some (some 7) ∧
    (alookup "f" mFileAgain.file_metrics).map (fun m => m.review_time) = some none := by
  constructor
  · simp [mFileTimed, mFileOnly, record_file_review, record_timing, Metrics.init, aset, alookup]
  · simp [mFileAgain, mFileTimed, mFileOnly, record_file_review, record_timing, Metrics.init,
      aset, alookup]

/-- C7: the computed complexity is one plus the number of `if`/`while`/
`for` constructs in the subtree plus, for each `and`-chain with `k`
operands, `k - 1`; it is at least 1, and with no `and`-chain at all it is
exactly the construct count plus one. -/
theorem calculate_complexity_spec (node : Ast)
    (h : andOperandsOk (walk node) = true) :
    calculate_complexity node
        = 1 + (condCount (walk node) : Int) + andExcess (walk node) ∧
    1 ≤ calculate_complexity node ∧
    (noAndChains (walk node) = true →
      calculate_complexity node = (condCount (walk node) : Int) + 1) := by
  have hf : calculate_complexity node
      = 1 + (condCount (walk node) : Int) + andExcess (walk node) :=
    foldl_complexityStep (walk node) 1
  refine ⟨hf, ?_, ?_⟩
  · rw [hf]
    have h1 : (0 : Int) ≤ (condCount (walk node) : Int) := Int.natCast_nonneg _
    have h2 := andExcess_nonneg (walk node) h
    omega
  · intro hn
    rw [hf, andExcess_eq_zero (walk node) hn]
    ring

/-- C7 witness: a function with two `if` statements and no boolean
chains. -/
theorem calculate_complexity_spec_witness :
    andOperandsOk (walk sampleFn) = true ∧
    (calculate_complexity sampleFn
        = 1 + (condCount (walk sampleFn) : Int) + andExcess (walk sampleFn) ∧
     1 ≤ calculate_complexity sampleFn ∧
     (noAndChains (walk sampleFn) = true →
       calculate_complexity sampleFn = (condCount (walk sampleFn) : Int) + 1)) :=
  ⟨by decide, calculate_complexity_spec sampleFn (by decide)⟩

/-- C3 counterexample: the claim quantifies over any content containing a
password assignment, but the single-line file `password = "hunter2"` has
no module docstring, so the docstring check raises and `review_file`
returns the empty list instead of exactly one Security/High issue. -/
theorem review_file_password_without_docstring_yields_nothing :
    (review_file tplPresent (some pwContent) "a.py" (.ok pwTreeNoDoc) Reviewer.init).1 = [] := by
  decide

/-- C3 (amended): for content whose only credential-pattern match is a
password assignment at offset `p`, reviewing it as a `.py` file yields
exactly one issue, with category Security, severity High, and line equal
to one plus the number of newlines before the match start - provided the
docstring check passes without findings or crash (in particular the
module carries a docstring) and the naming and complexity checks are
silent; without a module docstring `review_file` returns the empty list
instead (see the counterexample). -/
theorem review_file_single_password_finding
    (tc : Option String) (content path : String) (tree : Ast) (r : Reviewer) (p : Nat)
    (htc : ¬ load_template tc = [])
    (hext : fileExt path = ".py")
    (hdoc : check_docstrings path tree = ([], false))
    (hnam : check_naming_conventions path tree = [])
    (hcx : check_function_complexity path tree = [])
    (hpw : findMatches .password content.data = [p])
    (hak : findMatches .apikey content.data = [])
    (hse : findMatches .secret content.data = [])
    (hto : findMatches .token content.data = []) :
    (review_file tc (some content) path (.ok tree) r).1 =
      [{ file := path, line := lineNumber content.data p, category := "Security",
         severity := "High", message := "Potential hardcoded credential detected" }] := by
  unfold review_file
  rw [if_neg htc]
  simp only [hext, if_pos]
  unfold review_python
  simp [check_hardcoded_credentials, credPatterns, hpw, hak, hse, hto, hdoc, hnam, hcx,
    finishReview]

/-- C3 witness: the password file with a module docstring; the match
starts at offset 8, on line 2. -/
theorem review_file_single_password_finding_witness :
    ¬ load_template tplPresent = [] ∧
    fileExt "a.py" = ".py" ∧
    check_docstrings "a.py" pwTreeDoc = ([], false) ∧
    check_naming_conventions "a.py" pwTreeDoc = [] ∧
    check_function_complexity "a.py" pwTreeDoc = [] ∧
    findMatches .password pwDocContent.data = [8] ∧
    findMatches .apikey pwDocContent.data = [] ∧
    findMatches .secret pwDocContent.data = [] ∧
    findMatches .token pwDocContent.data = [] ∧
    (review_file tplPresent (some pwDocContent) "a.py" (.ok pwTreeDoc) Reviewer.init).1 =
      [{ file := "a.py", line := lineNumber pwDocContent.data 8, category := "Security",
         severity := "High", message := "Potential hardcoded credential detected" }] :=
  ⟨by decide, by decide, by decide, by decide, by decide, by decide, by decide, by decide,
   by decide,
   review_file_single_password_finding tplPresent pwDocContent "a.py" pwTreeDoc
     Reviewer.init 8 (by decide) (by decide) (by decide) (by decide) (by decide)
     (by decide) (by decide) (by decide) (by decide)⟩

/-- C9 counterexample: a dunder-named `__init__` without a docstring is
not reported - the exemption `name.startswith(chr(95))` covers every
leading underscore, not just a single one - contradicting the claim that
such a function is flagged. -/
theorem check_docstrings_dunder_exempt :
    check_docstrings "f.py" dunderTree = ([], false) := by decide

/-- C9 (amended): on a tree whose module nodes all carry docstrings, the
docstring check emits one Documentation/Medium issue at the node line
for each class and each named function whose first statement is not a
bare string literal, with functions whose name starts with an underscore
- single or double, so dunder names included - exempt; a module node
without a docstring would instead raise an attribute error that aborts
the check. -/
theorem check_docstrings_policy (path : String) (tree : Ast)
    (h : moduleCrashFree tree = true) :
    check_docstrings path tree = ((walk tree).filterMap (docIssueSpec path), false) :=
  docGo_eq_filterMap path (walk tree) h

/-- C9 witness: a module with a docstring, an undocumented class, an
underscore-named function and an undocumented public function. -/
theorem check_docstrings_policy_witness :
    moduleCrashFree docWitnessTree = true ∧
    check_docstrings "f.py" docWitnessTree =
      ((walk docWitnessTree).filterMap (docIssueSpec "f.py"), false) :=
  ⟨by decide, check_docstrings_policy "f.py" docWitnessTree (by decide)⟩

/-- C8: with one issue accumulated on the reviewer instance,
`generate_review_report` applied to the explicitly empty list does not
return the fixed no-issues report (the expression
`issues = issues or self.issues` treats the empty list like `None` and
falls back to the accumulated issues), while on an instance with no
accumulated issues it does. -/
theorem generate_review_report_empty_arg_bug :
    generate_review_report accReviewer (some []) ≠ no_issues_report ∧
    generate_review_report { issues := [], stats := accReviewer.stats } (some []) =
      no_issues_report :=
  ⟨by decide, by decide⟩

/-- C1: evaluation at the failing input.  On a fresh recorder with one
security issue, the `total` of the first snapshot equals the sum of the five
built-in counters (1), but the shallow `copy()` in `get_metrics` writes
`total` and `issues_per_1000_lines` into the stored issue dictionary, so
a second snapshot with no intervening recording reports `total = 2`,
no longer the sum of the five built-in counters (still 1). -/
theorem get_metrics_total_pollution :
    alookup "total" (get_metrics 1 mOneIssue).1.issues
        = some (builtinIssueSum (get_metrics 1 mOneIssue).1.issues) ∧
    alookup "total" (get_metrics 2 (get_metrics 1 mOneIssue).2).1.issues = some 2 ∧
    builtinIssueSum (get_metrics 2 (get_metrics 1 mOneIssue).2).1.issues = 1 ∧
    alookup "total" (get_metrics 2 (get_metrics 1 mOneIssue).2).1.issues ≠
      some (builtinIssueSum (get_metrics 2 (get_metrics 1 mOneIssue).2).1.issues) := by
  refine ⟨?_, ?_, ?_, ?_⟩ <;>
    simp [mOneIssue, get_metrics, record_issue, Metrics.init, aset, alookup, sumValues,
      builtinIssueSum, initIssueKeys] <;>
    norm_num

/-- C2: evaluation at the failing input.  `get_metrics` is not a pure
query: it mutates the stored issue dictionary through the shallow copy,
and two consecutive snapshots with no recording in between report
different issue totals (1, then 2). -/
theorem get_metrics_mutates_state :
    (get_metrics 1 mOneIssue).2.issues ≠ mOneIssue.issues ∧
    alookup "total" (get_metrics 1 mOneIssue).1.issues = some 1 ∧
    alookup "total" (get_metrics 2 (get_metrics 1 mOneIssue).2).1.issues = some 2 := by
  refine ⟨?_, ?_, ?_⟩ <;>
    simp [mOneIssue, get_metrics, record_issue, Metrics.init, aset, alookup, sumValues] <;>
    norm_num
